import Mathlib

/-!
Shallow embedding of the two source files of this repository:

* `nemo/collections/nlp/nm/trainables/common/huggingface/gpt2_nm.py` —
  the `GPT2` neural-module wrapper class;
* `examples/nlp/intent_detection_slot_tagging/joint_intent_slot_with_bert.py` —
  the joint intent-detection / slot-tagging training script.

Pure control flow and arithmetic are embedded directly; calls into the wrapped
deep-learning framework and the transformers library (model forward passes,
file reading for datasets, tokenizers) are treated as black-box collaborators and are
represented symbolically by the argument records the script passes to them.
Python exceptions are modelled by `Except` values, and Python global-name
resolution inside `gpt2_nm.py` is modelled explicitly because that module
references names it never imports.
-/

namespace NeMo

/-- Python exception values raised by the modelled code. -/
inductive PyError where
  | valueError (msg : String)
  | fileNotFoundError (msg : String)
  | nameError (n : String)
  deriving DecidableEq

/-! ## gpt2_nm.py -/

/-- Global names available in the module `gpt2_nm.py`: exactly the names that
its imports (lines 19-26) bring into scope.  `BertConfig` and
`BertModel` are not among them; `GPT2Config` and `GPT2Model` are imported
(line 21) but never used in the module body. -/
def gpt2ModuleImportedNames : List String :=
  ["List", "Optional", "GPT2Config", "GPT2Model", "TrainableNM",
   "PretrainedModelInfo", "ChannelType", "NeuralType", "add_port_docs"]

/-- Python name resolution inside `gpt2_nm.py`: evaluating a global name
succeeds if the module imports it and raises `NameError` otherwise. -/
def evalName (n : String) : Except PyError String :=
  if gpt2ModuleImportedNames.contains n then Except.ok n
  else Except.error (PyError.nameError n)

/-- The three optional model-specification arguments of `GPT2.__init__`
(lines 99-115); the remaining keyword arguments (hidden sizes, dropouts, …)
are only ever forwarded to the config constructor and play no role in the
control flow, so they are omitted. -/
structure GPT2InitArgs where
  pretrained_model_name : Option String
  config_filename : Option String
  vocab_size : Option Nat
  deriving DecidableEq

/-- The count computed at lines 121-127 of `gpt2_nm.py`: how many of the three
model-specification arguments are not `None`. -/
def countSupplied (a : GPT2InitArgs) : Nat :=
  (if a.pretrained_model_name.isSome then 1 else 0)
    + (if a.config_filename.isSome then 1 else 0)
    + (if a.vocab_size.isSome then 1 else 0)

/-- Message of the `ValueError` raised at lines 129-134 when the count of
supplied model-specification arguments differs from one. -/
def gpt2OnlyOneMsg : String :=
  "Only one of pretrained_model_name, vocab_size, or config_filename should be passed into the BERT constructor."

/-- Message of the `ValueError` in the trailing `else` branch (lines 154-157). -/
def gpt2TrailingMsg : String :=
  "Either pretrained_model_name or vocab_size must be passed into the BERT constructor"

/-- The model object a successful run of `GPT2.__init__` would construct:
which class is instantiated and from what. -/
inductive ConstructedModel where
  | fromScratchConfig (modelClass configClass : String)
  | fromPretrained (modelClass : String) (pretrainedName : String)
  | fromConfigFile (modelClass configClass : String) (file : String)
  deriving DecidableEq

/-- `GPT2.__init__` (lines 99-163 of `gpt2_nm.py`).  After the exactly-one
check, the branch taken evaluates the global names `BertConfig` / `BertModel`
in source order; evaluating an unresolvable name propagates a `NameError`,
exactly as in Python. -/
def GPT2_init (a : GPT2InitArgs) : Except PyError ConstructedModel :=
  if countSupplied a ≠ 1 then
    Except.error (PyError.valueError gpt2OnlyOneMsg)
  else if a.vocab_size.isSome then
    match evalName ("BertConfig") with
    | Except.error e => Except.error e
    | Except.ok configClass =>
      match evalName ("BertModel") with
      | Except.error e => Except.error e
      | Except.ok modelClass =>
        Except.ok (ConstructedModel.fromScratchConfig modelClass configClass)
  else if a.pretrained_model_name.isSome then
    match evalName ("BertModel") with
    | Except.error e => Except.error e
    | Except.ok modelClass =>
      Except.ok (ConstructedModel.fromPretrained modelClass (Option.getD a.pretrained_model_name ("")))
  else if a.config_filename.isSome then
    match evalName ("BertConfig") with
    | Except.error e => Except.error e
    | Except.ok configClass =>
      match evalName ("BertModel") with
      | Except.error e => Except.error e
      | Except.ok modelClass =>
        Except.ok (ConstructedModel.fromConfigFile modelClass configClass (Option.getD a.config_filename ("")))
  else
    Except.error (PyError.valueError gpt2TrailingMsg)

/-! ## joint_intent_slot_with_bert.py -/

/-- The command-line arguments of the training script (lines 42-106), with the
fields the modelled computation reads.  Float-valued flags are embedded as
exact rationals. -/
structure Args where
  data_dir : String
  work_dir : String
  checkpoint_dir : Option String
  pretrained_model_name : String
  bert_checkpoint : Option String
  bert_config : Option String
  vocab_file : Option String
  trainFilePrefixName : String
  evalFilePrefixName : String
  num_epochs : Nat
  batch_size : Nat
  max_seq_length : Nat
  num_gpus : Nat
  optimizer_kind : String
  amp_opt_level : String
  lr : ℚ
  lr_policy_name : String
  lr_warmup_proportion : ℚ
  weight_decay : ℚ
  fc_dropout : ℚ
  intent_loss_weight : ℚ
  class_balancing : String
  do_lower_case : Bool
  shuffle_data : Bool
  ignore_start_end : Bool
  ignore_extra_tokens : Bool
  none_slot_label : String
  pad_label : Int
  num_train_samples : Int
  num_eval_samples : Int
  save_epoch_freq : Int
  save_step_freq : Int
  local_rank : Option Int
  deriving DecidableEq

/-- The argparse defaults of the script (lines 42-104); the three
`store_false` flags (`shuffle_data`, `ignore_start_end`,
`ignore_extra_tokens`) default to true, the `store_true` flag
(`do_lower_case`) to false. -/
def defaultArgs : Args :=
  { data_dir := "data/atis", work_dir := "outputs", checkpoint_dir := none,
    pretrained_model_name := "bert-base-uncased", bert_checkpoint := none,
    bert_config := none, vocab_file := none,
    trainFilePrefixName := "train", evalFilePrefixName := "test",
    num_epochs := 10, batch_size := 128, max_seq_length := 50, num_gpus := 1,
    optimizer_kind := "adam", amp_opt_level := "O0",
    lr := 1 / 50000, lr_policy_name := "WarmupAnnealing",
    lr_warmup_proportion := 1 / 10, weight_decay := 1 / 100,
    fc_dropout := 1 / 10, intent_loss_weight := 3 / 5,
    class_balancing := "regular", do_lower_case := false, shuffle_data := true,
    ignore_start_end := true, ignore_extra_tokens := true,
    none_slot_label := "O", pad_label := -1,
    num_train_samples := -1, num_eval_samples := -1,
    save_epoch_freq := 1, save_step_freq := -1, local_rank := none }

/-- Fields of the `JointIntentSlotDataDesc` object that the script reads; its
construction from the dataset files is delegated to the wrapped library. -/
structure DataDesc where
  data_dir : String
  pad_label : Int
  num_intents : Nat
  num_slots : Nat
  deriving DecidableEq

/-- Python truthiness of an optional string argument: `None` and the empty
string are falsy, any other string is truthy. -/
def pyTruthy : Option String → Bool
  | none => false
  | some s => !s.isEmpty

/-- Message of the f-string `ValueError` at line 109. -/
def dataNotFoundMsg (d : String) : String := ("Data not found at ") ++ d

/-- The module-level data-directory existence check (lines 108-109); the
filesystem is a parameter. -/
def dataDirCheck (fsExists : String → Bool) (d : String) : Except PyError Unit :=
  if fsExists d then Except.ok () else Except.error (PyError.valueError (dataNotFoundMsg d))

/-- The keyword arguments passed to `NeuralModuleFactory` (lines 111-120). -/
structure FactoryCall where
  backend : String
  local_rank : Option Int
  optimization_level : String
  log_dir : String
  checkpoint_dir : Option String
  create_tb_writer : Bool
  add_time_to_log_dir : Bool
  deriving DecidableEq

/-- The `NeuralModuleFactory` construction at lines 111-120. -/
def mkFactoryCall (a : Args) : FactoryCall :=
  { backend := "PyTorch", local_rank := a.local_rank,
    optimization_level := a.amp_opt_level, log_dir := a.work_dir,
    checkpoint_dir := a.checkpoint_dir, create_tb_writer := true,
    add_time_to_log_dir := true }

/-- The encoder model the script selects. -/
inductive ModelChoice where
  | megatronBERT (config_file vocab_file : Option String)
  | huggingface (bert_config : Option String) (pretrained_model_name : String)
  deriving DecidableEq

/-- Message of the `FileNotFoundError` at line 124. -/
def megatronMissingMsg : String :=
  "Config file, checkpoint and vocabulary file should be provided for Megatron models."

/-- Model selection (lines 122-129): under `--pretrained_model_name megatron`
the script requires truthy `--bert_config`, `--bert_checkpoint` and
`--vocab_file` and builds a `MegatronBERT`; otherwise it builds a HuggingFace
model. -/
def modelSelection (a : Args) : Except PyError ModelChoice :=
  if a.pretrained_model_name = ("megatron") then
    if !(pyTruthy a.bert_config && pyTruthy a.bert_checkpoint && pyTruthy a.vocab_file) then
      Except.error (PyError.fileNotFoundError megatronMissingMsg)
    else
      Except.ok (ModelChoice.megatronBERT a.bert_config a.vocab_file)
  else
    Except.ok (ModelChoice.huggingface a.bert_config a.pretrained_model_name)

/-- Symbolic tensors of the assembled computation graph: each constructor
records which module produced the tensor and from which inputs, mirroring the
wiring statements of `create_pipeline` (lines 185-206). -/
inductive Tensor where
  | dataOut (split field : String)
  | encoderOut (input_ids token_type_ids attention_mask : Tensor)
  | intentLogitsOf (hidden_states : Tensor)
  | slotLogitsOf (hidden_states : Tensor)
  | crossEntropy (logits labels : Tensor)
  | crossEntropyMasked (logits labels loss_mask : Tensor)
  | aggregated (w1 w2 : ℚ) (loss_1 loss_2 : Tensor)
  deriving DecidableEq

/-- The keyword arguments the script passes to the
`BertJointIntentSlotDataLayer` constructor (lines 171-183); the tokenizer
object is delegated and omitted. -/
structure DataLayerCall where
  input_file : String
  slot_file : String
  pad_label : Int
  max_seq_length : Nat
  num_samples : Int
  shuffle : Bool
  batch_size : Nat
  ignore_extra_tokens : Bool
  ignore_start_end : Bool
  do_lower_case : Bool
  deriving DecidableEq

/-- The arguments of the `LossAggregatorNM` construction at line 162. -/
structure LossAggregatorCall where
  num_inputs : Nat
  weights : List ℚ
  deriving DecidableEq

/-- `total_loss_fn = LossAggregatorNM(num_inputs=2, weights=[w, 1.0 - w])`
with `w = args.intent_loss_weight` (line 162). -/
def mkTotalLossFn (a : Args) : LossAggregatorCall :=
  { num_inputs := 2, weights := [a.intent_loss_weight, 1 - a.intent_loss_weight] }

/-- Exact-arithmetic `math.ceil(a / b)` on nonnegative integers. -/
def ceilDiv (a b : Nat) : Nat := (a + b - 1) / b

/-- The values `create_pipeline` returns (line 219). -/
structure Pipeline where
  dataLayer : DataLayerCall
  tensorsToEvaluate : List Tensor
  totalLoss : Tensor
  stepsPerEpoch : Nat
  deriving DecidableEq

/-- `create_pipeline` (lines 165-219).  `dataSize` stands for
`len(data_layer)`, which is determined by the dataset files and therefore a
parameter of the model.  The local `batch_size` is reduced to the dataset size
when the dataset is smaller (lines 190-193) before `steps_per_epoch` is
computed (line 195); the data layer itself is built with the original batch
size (line 179). -/
def createPipeline (a : Args) (dd : DataDesc) (dataSize : Nat) (num_samples : Int)
    (batch_size : Nat) (pName : String) (is_training : Bool) (num_gpus : Nat) :
    Pipeline :=
  let data_file := dd.data_dir ++ ("/") ++ pName ++ (".tsv")
  let slot_file := dd.data_dir ++ ("/") ++ pName ++ ("_slots.tsv")
  let shuffle := if is_training then a.shuffle_data else false
  let dl : DataLayerCall :=
    { input_file := data_file, slot_file := slot_file, pad_label := dd.pad_label,
      max_seq_length := a.max_seq_length, num_samples := num_samples,
      shuffle := shuffle, batch_size := batch_size,
      ignore_extra_tokens := a.ignore_extra_tokens,
      ignore_start_end := a.ignore_start_end, do_lower_case := a.do_lower_case }
  let reduced_batch_size := if dataSize < batch_size then dataSize else batch_size
  let steps := ceilDiv dataSize (reduced_batch_size * num_gpus)
  let input_ids := Tensor.dataOut pName ("input_ids")
  let input_type_ids := Tensor.dataOut pName ("input_type_ids")
  let input_mask := Tensor.dataOut pName ("input_mask")
  let loss_mask := Tensor.dataOut pName ("loss_mask")
  let subtokens_mask := Tensor.dataOut pName ("subtokens_mask")
  let intents := Tensor.dataOut pName ("intents")
  let slots := Tensor.dataOut pName ("slots")
  let hidden_states := Tensor.encoderOut input_ids input_type_ids input_mask
  let intent_logits := Tensor.intentLogitsOf hidden_states
  let slot_logits := Tensor.slotLogitsOf hidden_states
  let intent_loss := Tensor.crossEntropy intent_logits intents
  let slot_loss := Tensor.crossEntropyMasked slot_logits slots loss_mask
  let total_loss :=
    Tensor.aggregated a.intent_loss_weight (1 - a.intent_loss_weight) intent_loss slot_loss
  let tensors :=
    if is_training then [total_loss, intent_loss, slot_loss]
    else [intent_logits, slot_logits, intents, slots, subtokens_mask]
  { dataLayer := dl, tensorsToEvaluate := tensors, totalLoss := total_loss,
    stepsPerEpoch := steps }

/-- The two `create_pipeline` invocations of the script (lines 222-235),
guarded by the data-directory check and the model selection that precede them
in the source. -/
def scriptPipelines (fsExists : String → Bool) (a : Args) (dd : DataDesc)
    (trainDataSize evalDataSize : Nat) : Except PyError (Pipeline × Pipeline) :=
  match dataDirCheck fsExists a.data_dir with
  | Except.error e => Except.error e
  | Except.ok _ =>
    match modelSelection a with
    | Except.error e => Except.error e
    | Except.ok _ =>
      Except.ok
        (createPipeline a dd trainDataSize a.num_train_samples a.batch_size
           a.trainFilePrefixName true a.num_gpus,
         createPipeline a dd evalDataSize a.num_eval_samples a.batch_size
           a.evalFilePrefixName false a.num_gpus)

/-- Objects the script constructs, in source order. -/
inductive Constructed where
  | factory
  | model
  | tokenizer
  | dataDesc
  | classifier
  | intentLossFn
  | slotLossFn
  | totalLossFn
  | trainPipeline
  | evalPipeline
  deriving DecidableEq

/-- The straight-line module-level run of the script: the trace of objects it
constructs, in order, together with the first exception raised (if any).
The data-directory check (line 108) precedes every construction; the factory
(line 111) precedes model selection (lines 122-129); everything else follows. -/
def scriptRun (fsExists : String → Bool) (a : Args) :
    List Constructed × Option PyError :=
  match dataDirCheck fsExists a.data_dir with
  | Except.error e => ([], some e)
  | Except.ok _ =>
    match modelSelection a with
    | Except.error e => ([Constructed.factory], some e)
    | Except.ok _ =>
      ([Constructed.factory, Constructed.model, Constructed.tokenizer,
        Constructed.dataDesc, Constructed.classifier, Constructed.intentLossFn,
        Constructed.slotLossFn, Constructed.totalLossFn,
        Constructed.trainPipeline, Constructed.evalPipeline], none)

/-- The keyword-argument names of the `nf.train(...)` invocation
(lines 273-279). -/
def nfTrainKeywordArgs : List String :=
  ["tensors_to_optimize", "callbacks", "lr_policy", "optimizer", "optimization_params"]

/-- The keys of the `optimization_params` dictionary passed to `nf.train`
(line 278). -/
def nfTrainOptimizationParamKeys : List String :=
  ["num_epochs", "lr", "weight_decay"]

/-- The `optimization_params` dictionary of line 278. -/
structure OptimizationParams where
  num_epochs : Nat
  lr : ℚ
  weight_decay : ℚ
  deriving DecidableEq

/-- Everything the script hands to the delegated training-loop invocation
`nf.train` (lines 273-279), together with the data derived from the pipelines
that enters it through the callbacks (lines 238-262) and the learning-rate
policy (lines 269-271). -/
structure TrainCall where
  tensors_to_optimize : List Tensor
  lr_policy_name : String
  lr_policy_total_steps : Nat
  lr_policy_warmup_ratio : ℚ
  optimizer : String
  optimization_params : OptimizationParams
  train_callback_step_freq : Nat
  eval_callback_eval_step : Nat
  deriving DecidableEq

/-- The `nf.train` invocation the script issues, as a function of the parsed
arguments and the training-set size. -/
def scriptTrainCall (a : Args) (dd : DataDesc) (trainDataSize : Nat) : TrainCall :=
  let trainPipe :=
    createPipeline a dd trainDataSize a.num_train_samples a.batch_size
      a.trainFilePrefixName true a.num_gpus
  { tensors_to_optimize := [trainPipe.totalLoss],
    lr_policy_name := a.lr_policy_name,
    lr_policy_total_steps := a.num_epochs * trainPipe.stepsPerEpoch,
    lr_policy_warmup_ratio := a.lr_warmup_proportion,
    optimizer := a.optimizer_kind,
    optimization_params :=
      { num_epochs := a.num_epochs, lr := a.lr, weight_decay := a.weight_decay },
    train_callback_step_freq := trainPipe.stepsPerEpoch,
    eval_callback_eval_step := trainPipe.stepsPerEpoch }

/-- The `create_pipeline` call sites of the script (lines 222-235): the
keyword arguments given at each of the two invocations. -/
structure CreatePipelineCall where
  num_samples : Int
  batch_size : Nat
  split : String
  is_training : Bool
  num_gpus : Nat
  deriving DecidableEq

/-- The training-pipeline call site (lines 222-228). -/
def trainPipelineCall (a : Args) : CreatePipelineCall :=
  { num_samples := a.num_train_samples, batch_size := a.batch_size,
    split := a.trainFilePrefixName, is_training := true, num_gpus := a.num_gpus }

/-- The eval-pipeline call site (lines 229-235). -/
def evalPipelineCall (a : Args) : CreatePipelineCall :=
  { num_samples := a.num_eval_samples, batch_size := a.batch_size,
    split := a.evalFilePrefixName, is_training := false, num_gpus := a.num_gpus }

/-! ## Theorems -/

/-- Name resolution of `BertConfig` inside `gpt2_nm.py` raises `NameError`. -/
theorem evalName_BertConfig :
    evalName ("BertConfig") = Except.error (PyError.nameError ("BertConfig")) := rfl

/-- Name resolution of `BertModel` inside `gpt2_nm.py` raises `NameError`. -/
theorem evalName_BertModel :
    evalName ("BertModel") = Except.error (PyError.nameError ("BertModel")) := rfl

/-- C2: the GPT2 constructor raises a `ValueError` if and only if the number
of non-None arguments among `pretrained_model_name`, `config_filename` and
`vocab_size` differs from exactly one; in particular, when exactly one is
supplied, no `ValueError` is raised (the failure that does occur there is a
`NameError`, not a `ValueError`). -/
theorem gpt2_valueError_iff_not_exactly_one (a : GPT2InitArgs) :
    (∃ msg, GPT2_init a = Except.error (PyError.valueError msg)) ↔
      countSupplied a ≠ 1 := by
  obtain ⟨p, c, v⟩ := a
  cases p <;> cases c <;> cases v <;>
    simp [GPT2_init, countSupplied, evalName_BertConfig, evalName_BertModel]

/-- Instance of C2 at a concrete input: with no argument supplied the
constructor raises the exactly-one `ValueError`. -/
theorem gpt2_valueError_iff_not_exactly_one_witness :
    (∃ msg,
        GPT2_init (GPT2InitArgs.mk none none none) =
          Except.error (PyError.valueError msg)) ↔
      countSupplied (GPT2InitArgs.mk none none none) ≠ 1 :=
  gpt2_valueError_iff_not_exactly_one (GPT2InitArgs.mk none none none)

/-- C3: whenever exactly one model-specification argument is supplied,
`GPT2.__init__` fails with a `NameError` on `BertConfig` or `BertModel`,
names the module never brings into scope (while `GPT2Config` and `GPT2Model`
are in scope); the constructor never returns a constructed model, and the
trailing else-branch `ValueError` is unreachable. -/
theorem gpt2_init_always_nameError :
    (∀ a : GPT2InitArgs, countSupplied a = 1 →
        GPT2_init a = Except.error (PyError.nameError ("BertConfig")) ∨
        GPT2_init a = Except.error (PyError.nameError ("BertModel"))) ∧
    (∀ (a : GPT2InitArgs) (m : ConstructedModel), GPT2_init a ≠ Except.ok m) ∧
    (∀ a : GPT2InitArgs,
        GPT2_init a ≠ Except.error (PyError.valueError gpt2TrailingMsg)) ∧
    gpt2ModuleImportedNames.contains ("BertConfig") = false ∧
    gpt2ModuleImportedNames.contains ("BertModel") = false ∧
    gpt2ModuleImportedNames.contains ("GPT2Config") = true ∧
    gpt2ModuleImportedNames.contains ("GPT2Model") = true := by
  refine ⟨?_, ?_, ?_, rfl, rfl, rfl, rfl⟩
  · rintro ⟨p, c, v⟩ h
    cases p <;> cases c <;> cases v <;>
      simp_all [GPT2_init, countSupplied, evalName_BertConfig, evalName_BertModel]
  · rintro ⟨p, c, v⟩ m
    cases p <;> cases c <;> cases v <;>
      simp [GPT2_init, countSupplied, evalName_BertConfig, evalName_BertModel]
  · rintro ⟨p, c, v⟩
    cases p <;> cases c <;> cases v <;>
      simp [GPT2_init, countSupplied, evalName_BertConfig, evalName_BertModel,
        gpt2OnlyOneMsg, gpt2TrailingMsg]

/-- The single-argument instantiation used as the concrete instance for C3. -/
def vocabOnlyArgs : GPT2InitArgs := GPT2InitArgs.mk none none (some 100)

/-- Instance of C3 at a concrete input: with only `vocab_size=100` supplied,
the constructor fails with `NameError` on an unimported Bert class. -/
theorem gpt2_init_always_nameError_witness :
    countSupplied vocabOnlyArgs = 1 ∧
    (GPT2_init vocabOnlyArgs = Except.error (PyError.nameError ("BertConfig")) ∨
     GPT2_init vocabOnlyArgs = Except.error (PyError.nameError ("BertModel"))) :=
  ⟨rfl, gpt2_init_always_nameError.1 vocabOnlyArgs rfl⟩

/-- C4: the `GPT2` module does not instantiate the GPT-2 architecture.  At
each of the three single-argument inputs its constructor evaluates the Bert
class names (`BertConfig` first in the from-scratch and config-file branches,
`BertModel` in the pretrained branch) and fails with a `NameError`, even
though the module imports `GPT2Model` and never imports `BertModel`. -/
theorem gpt2_instantiates_bert_classes_not_gpt2 :
    GPT2_init (GPT2InitArgs.mk none none (some 30522)) =
      Except.error (PyError.nameError ("BertConfig")) ∧
    GPT2_init (GPT2InitArgs.mk (some ("gpt2")) none none) =
      Except.error (PyError.nameError ("BertModel")) ∧
    GPT2_init (GPT2InitArgs.mk none (some ("config.json")) none) =
      Except.error (PyError.nameError ("BertConfig")) ∧
    gpt2ModuleImportedNames.contains ("GPT2Model") = true ∧
    gpt2ModuleImportedNames.contains ("GPT2Config") = true ∧
    gpt2ModuleImportedNames.contains ("BertModel") = false ∧
    gpt2ModuleImportedNames.contains ("BertConfig") = false :=
  ⟨rfl, rfl, rfl, rfl, rfl, rfl, rfl⟩

/-- A ceiling division that lands between its divisor and twice the divisor
equals one. -/
theorem ceilDiv_eq_one (a b : Nat) (h1 : 1 ≤ a) (h2 : a ≤ b) : ceilDiv a b = 1 := by
  unfold ceilDiv
  have hb : 1 ≤ b := le_trans h1 h2
  exact Nat.div_eq_of_lt_le (by omega) (by omega)

/-- On a nonempty dataset with positive batch size and at least one GPU, the
steps-per-epoch value computed by `create_pipeline` (with its local batch-size
reduction) coincides with the ceiling formula taken at the original batch
size. -/
theorem createPipeline_steps_eq (a : Args) (dd : DataDesc) (ds : Nat) (ns : Int)
    (bs : Nat) (p : String) (t : Bool) (g : Nat)
    (hds : 1 ≤ ds) (hbs : 1 ≤ bs) (hg : 1 ≤ g) :
    (createPipeline a dd ds ns bs p t g).stepsPerEpoch = ceilDiv ds (bs * g) := by
  show ceilDiv ds ((if ds < bs then ds else bs) * g) = ceilDiv ds (bs * g)
  by_cases h : ds < bs
  · rw [if_pos h]
    rw [ceilDiv_eq_one ds (ds * g) hds (Nat.le_mul_of_pos_right ds hg)]
    rw [ceilDiv_eq_one ds (bs * g) hds
      (le_trans (Nat.le_of_lt h) (Nat.le_mul_of_pos_right bs hg))]
  · rw [if_neg h]

/-- C1: in a run whose data directory exists and whose model selection
succeeds, pipeline construction succeeds, and on a nonempty training set with
positive batch size and GPU count the `steps_per_epoch` of the training pipeline
equals `ceil(dataset_size / (batch_size * num_gpus))` at the command-line
batch size. -/
theorem steps_per_epoch_formula (fsExists : String → Bool) (a : Args)
    (dd : DataDesc) (trainDataSize evalDataSize : Nat) (m : ModelChoice)
    (hfs : fsExists a.data_dir = true) (hm : modelSelection a = Except.ok m)
    (hds : 1 ≤ trainDataSize) (hbs : 1 ≤ a.batch_size) (hg : 1 ≤ a.num_gpus) :
    ∃ ptrain peval,
      scriptPipelines fsExists a dd trainDataSize evalDataSize =
        Except.ok (ptrain, peval) ∧
      ptrain.stepsPerEpoch = ceilDiv trainDataSize (a.batch_size * a.num_gpus) := by
  refine ⟨createPipeline a dd trainDataSize a.num_train_samples a.batch_size
      a.trainFilePrefixName true a.num_gpus,
    createPipeline a dd evalDataSize a.num_eval_samples a.batch_size
      a.evalFilePrefixName false a.num_gpus, ?_, ?_⟩
  · unfold scriptPipelines dataDirCheck
    rw [hfs, if_pos rfl, hm]
  · exact createPipeline_steps_eq a dd trainDataSize a.num_train_samples
      a.batch_size a.trainFilePrefixName true a.num_gpus hds hbs hg

/-- The argument instance used as the concrete instance for C1. -/
def stepsWitnessArgs : Args := { defaultArgs with batch_size := 3, num_gpus := 2 }

/-- Instance of C1 at a concrete input: ten samples, batch size three, two
GPUs give `ceil(10 / 6) = 2` steps per epoch. -/
theorem steps_per_epoch_formula_witness :
    ∃ ptrain peval,
      scriptPipelines (fun _ => true) stepsWitnessArgs
          { data_dir := "data/atis", pad_label := -1, num_intents := 5, num_slots := 7 }
          10 10 =
        Except.ok (ptrain, peval) ∧
      ptrain.stepsPerEpoch =
        ceilDiv 10 (stepsWitnessArgs.batch_size * stepsWitnessArgs.num_gpus) :=
  steps_per_epoch_formula (fun _ => true) stepsWitnessArgs
    { data_dir := "data/atis", pad_label := -1, num_intents := 5, num_slots := 7 }
    10 10 (ModelChoice.huggingface none ("bert-base-uncased")) rfl rfl
    (by decide) (by decide) (by decide)

/-- C5: when the path given by `--data_dir` does not exist, the script raises
`ValueError` with the trace of constructed objects still empty — before any
model, tokenizer or pipeline object exists; when the path exists, the
data-directory check raises nothing. -/
theorem data_dir_check_guards_script (fsExists : String → Bool) (a : Args) :
    (fsExists a.data_dir = false →
      scriptRun fsExists a =
        ([], some (PyError.valueError (dataNotFoundMsg a.data_dir)))) ∧
    (fsExists a.data_dir = true →
      dataDirCheck fsExists a.data_dir = Except.ok ()) := by
  constructor
  · intro h
    unfold scriptRun dataDirCheck
    rw [h]
    simp
  · intro h
    unfold dataDirCheck
    rw [h]
    simp

/-- Instance of C5 at concrete inputs: a filesystem with no paths makes the
default run fail with an empty construction trace, and a filesystem with all
paths lets the check pass. -/
theorem data_dir_check_guards_script_witness :
    scriptRun (fun _ => false) defaultArgs =
      ([], some (PyError.valueError (dataNotFoundMsg defaultArgs.data_dir))) ∧
    dataDirCheck (fun _ => true) defaultArgs.data_dir = Except.ok () :=
  ⟨(data_dir_check_guards_script (fun _ => false) defaultArgs).1 rfl,
   (data_dir_check_guards_script (fun _ => true) defaultArgs).2 rfl⟩

/-- C6: under `--pretrained_model_name megatron` the script raises
`FileNotFoundError` if and only if at least one of `--bert_config`,
`--bert_checkpoint` and `--vocab_file` is missing (None or empty); when all
three are supplied, a `MegatronBERT` model is selected. -/
theorem megatron_requires_three_files (a : Args)
    (h : a.pretrained_model_name = ("megatron")) :
    ((∃ msg, modelSelection a = Except.error (PyError.fileNotFoundError msg)) ↔
      ¬ (pyTruthy a.bert_config = true ∧ pyTruthy a.bert_checkpoint = true ∧
          pyTruthy a.vocab_file = true)) ∧
    (pyTruthy a.bert_config = true → pyTruthy a.bert_checkpoint = true →
      pyTruthy a.vocab_file = true →
      modelSelection a =
        Except.ok (ModelChoice.megatronBERT a.bert_config a.vocab_file)) := by
  constructor
  · cases hb : pyTruthy a.bert_config <;>
      cases hc : pyTruthy a.bert_checkpoint <;>
      cases hv : pyTruthy a.vocab_file <;>
      simp [modelSelection, h, hb, hc, hv]
  · intro hb hc hv
    simp [modelSelection, h, hb, hc, hv]

/-- The argument instance used as the concrete instance for C6. -/
def megatronFullArgs : Args :=
  { defaultArgs with
    pretrained_model_name := "megatron"
    bert_config := some ("cfg.json")
    bert_checkpoint := some ("ckpt.pt")
    vocab_file := some ("vocab.txt") }

/-- Instance of C6 at a concrete input: with all three files supplied, a
`MegatronBERT` model is selected. -/
theorem megatron_requires_three_files_witness :
    modelSelection megatronFullArgs =
      Except.ok (ModelChoice.megatronBERT (some ("cfg.json")) (some ("vocab.txt"))) :=
  (megatron_requires_three_files megatronFullArgs rfl).2 rfl rfl rfl

/-- C7: the pipeline is wired data layer → encoder → classifier → losses →
aggregator: the returned total loss is the aggregation of the intent
cross-entropy (over intent logits classified from the encoder output over the
input tensors of the data layer, against the intent labels of the data layer)
and the masked slot cross-entropy (over slot logits from the same encoder
output, against the slot labels of the data layer under its loss mask). -/
theorem pipeline_wiring (a : Args) (dd : DataDesc) (ds : Nat) (ns : Int)
    (bs : Nat) (p : String) (t : Bool) (g : Nat) :
    (createPipeline a dd ds ns bs p t g).totalLoss =
      Tensor.aggregated a.intent_loss_weight (1 - a.intent_loss_weight)
        (Tensor.crossEntropy
          (Tensor.intentLogitsOf
            (Tensor.encoderOut (Tensor.dataOut p ("input_ids"))
              (Tensor.dataOut p ("input_type_ids"))
              (Tensor.dataOut p ("input_mask"))))
          (Tensor.dataOut p ("intents")))
        (Tensor.crossEntropyMasked
          (Tensor.slotLogitsOf
            (Tensor.encoderOut (Tensor.dataOut p ("input_ids"))
              (Tensor.dataOut p ("input_type_ids"))
              (Tensor.dataOut p ("input_mask"))))
          (Tensor.dataOut p ("slots")) (Tensor.dataOut p ("loss_mask"))) := rfl

/-- The argument instances used as the concrete counterexample for C8. -/
def gpusOneArgs : Args := { defaultArgs with batch_size := 10, num_gpus := 1 }

/-- A run identical to `gpusOneArgs` except for `--num_gpus`. -/
def gpusTwoArgs : Args := { gpusOneArgs with num_gpus := 2 }

/-- C8 counterexample: `--num_gpus` is not forwarded to the delegated
training-loop invocation.  Two runs that differ only in `--num_gpus` (one vs
two GPUs, ten samples, batch size ten) issue identical `nf.train` invocations,
and no keyword argument of `nf.train` (nor any key of its
`optimization_params`) is `num_gpus`. -/
theorem num_gpus_not_forwarded_to_train :
    gpusTwoArgs = { gpusOneArgs with num_gpus := 2 } ∧
    gpusOneArgs.num_gpus ≠ gpusTwoArgs.num_gpus ∧
    scriptTrainCall gpusOneArgs
        { data_dir := "data/atis", pad_label := -1, num_intents := 5, num_slots := 7 } 10 =
      scriptTrainCall gpusTwoArgs
        { data_dir := "data/atis", pad_label := -1, num_intents := 5, num_slots := 7 } 10 ∧
    nfTrainKeywordArgs.contains ("num_gpus") = false ∧
    nfTrainOptimizationParamKeys.contains ("num_gpus") = false :=
  ⟨rfl, by decide, rfl, rfl, rfl⟩

/-- C8 amended: `--amp_opt_level` and `--local_rank` are passed verbatim to
the `NeuralModuleFactory`, and `--num_gpus` is forwarded unchanged to both
`create_pipeline` invocations; it is not a parameter of the `nf.train`
invocation itself. -/
theorem concurrency_flags_forwarding (a : Args) :
    (mkFactoryCall a).local_rank = a.local_rank ∧
    (mkFactoryCall a).optimization_level = a.amp_opt_level ∧
    (trainPipelineCall a).num_gpus = a.num_gpus ∧
    (evalPipelineCall a).num_gpus = a.num_gpus ∧
    nfTrainKeywordArgs.contains ("num_gpus") = false :=
  ⟨rfl, rfl, rfl, rfl, rfl⟩

/-- C9: the shuffle flag of the eval data layer is always false, independently of
the `--no_shuffle_data` flag — any two runs agree on it — while the training
data layer has a shuffle flag equal to the parsed `shuffle_data` value. -/
theorem eval_shuffle_independent_of_flag (a1 a2 : Args) (dd : DataDesc)
    (ds : Nat) (ns : Int) (bs : Nat) (p : String) (g : Nat) :
    (createPipeline a1 dd ds ns bs p false g).dataLayer.shuffle = false ∧
    (createPipeline a2 dd ds ns bs p false g).dataLayer.shuffle =
      (createPipeline a1 dd ds ns bs p false g).dataLayer.shuffle ∧
    (createPipeline a1 dd ds ns bs p true g).dataLayer.shuffle = a1.shuffle_data :=
  ⟨rfl, rfl, rfl⟩

/-- C10: the two weights handed to the loss aggregator are
`intent_loss_weight` and `1 - intent_loss_weight`, so they sum to one. -/
theorem loss_weights_sum_to_one (a : Args) :
    (mkTotalLossFn a).num_inputs = 2 ∧
    (mkTotalLossFn a).weights =
      [a.intent_loss_weight, 1 - a.intent_loss_weight] ∧
    (mkTotalLossFn a).weights.sum = 1 := by
  refine ⟨rfl, rfl, ?_⟩
  show a.intent_loss_weight + (1 - a.intent_loss_weight + 0) = 1
  ring

end NeMo
